import Mathlib

/-!
Formal model of the OAuth client-credentials token cache and the
authenticated-request wrappers of the FabioBot skill modules
(src/skills/email-manager, src/skills/fabric-api,
src/skills/powerbi-report-builder).

Each JavaScript module keeps one module-level mutable cache
`tokenCache = { token: null, expiresAt: 0 }` and a token getter that either
returns the cached token or performs one OAuth2 client-credentials exchange.
The embedding makes the state and the network explicit: a getter takes the
cache, the current clock reading `now` (Date.now(), in milliseconds) and the
identity provider's response to the exchange, and returns the result, the new
cache, and the list of exchange requests it issued.  HTTP request issuance is
represented by the response value handed to the function; `fetch` itself is
the external collaborator.
-/

/-- The module-level cache `let tokenCache = { token: null, expiresAt: 0 }`.
`token` is `none` for JavaScript `null`; `expiresAt` is in milliseconds. -/
structure TokenCache where
  token : Option String
  expiresAt : Int
deriving Repr, DecidableEq

/-- The initial cache value of every module: `{ token: null, expiresAt: 0 }`. -/
def TokenCache.initial : TokenCache := ⟨none, 0⟩

/-- JavaScript truthiness of a nullable string: `null`/`undefined` and the
empty string are falsy, every other string is truthy.  This is the test the
guard `if (tokenCache.token && ...)` applies to the cached token. -/
def strTruthy : Option String → Bool
  | none => false
  | some s => decide (s ≠ "")

/-- The cache-freshness guard shared verbatim by all three modules:
`tokenCache.token && tokenCache.expiresAt > now + 60000`. -/
def isFresh (c : TokenCache) (now : Int) : Bool :=
  strTruthy c.token && decide (c.expiresAt > now + 60000)

/-- The Azure AD environment variables the modules read:
`AZURE_TENANT_ID`, `AZURE_CLIENT_ID`, `AZURE_CLIENT_SECRET`.
`none` models an unset variable (JavaScript `undefined`). -/
structure AzureEnv where
  tenantId : Option String
  clientId : Option String
  clientSecret : Option String
deriving Repr, DecidableEq

/-- Interpolating a possibly-unset environment variable into a string, as
`URLSearchParams` / template literals do: `undefined` becomes "undefined". -/
def jsString : Option String → String
  | none => "undefined"
  | some s => s

/-- One token-exchange request as actually sent: the tenant id interpolated
into the endpoint URL and the form-encoded body fields
`client_id`, `client_secret`, `scope` (`grant_type` is always
`client_credentials`). -/
structure TokenRequest where
  tenantId : String
  client_id : String
  client_secret : String
  scope : String
deriving Repr, DecidableEq

/-- The identity provider's reaction to one token-exchange call.
`success` is a 2xx response with the parsed JSON fields `access_token` and
`expires_in` (seconds); `failure` is a non-2xx response with its status and
body text. -/
inductive TokenExchangeResponse where
  | success (access_token : String) (expires_in : Int)
  | failure (status : Nat) (body : String)
deriving Repr, DecidableEq

/-- Result of one invocation of a token getter: the value returned or the
error thrown, the cache after the call, and the exchange requests issued
(`[]` means the network was not touched). -/
structure TokenOutcome (ε : Type) where
  result : Except ε String
  cache : TokenCache
  calls : List TokenRequest

/-- One HTTP response from a target API, as seen by the wrappers:
`status`, `statusText` and the raw body text. -/
structure HttpResponse where
  status : Nat
  statusText : String
  body : String
deriving Repr, DecidableEq

/-- `response.ok`: status in the inclusive range 200-299. -/
def HttpResponse.isOk (r : HttpResponse) : Bool :=
  decide (200 ≤ r.status) && decide (r.status < 300)

/-- Whether an `Except` is a success (the call did not throw). -/
def exOk {ε α : Type} : Except ε α → Bool
  | Except.ok _ => true
  | Except.error _ => false

namespace EmailManager

/-- The error thrown by `getGraphToken` on a non-2xx token response:
`Graph token error: ${response.status} - ${error}` carries the status and
the response body text. -/
inductive GraphTokenError where
  | authError (status : Nat) (body : String)
deriving Repr, DecidableEq

/-- The scope requested by the email-manager module. -/
def graphScope : String := "https://graph.microsoft.com/.default"

/-- The exchange request built by `getGraphToken` from the environment
(lines 22-36 of src/skills/email-manager/index.js); unset variables are
interpolated as the string "undefined" and no validation happens. -/
def graphTokenRequest (env : AzureEnv) : TokenRequest :=
  ⟨jsString env.tenantId, jsString env.clientId, jsString env.clientSecret, graphScope⟩

/-- `getGraphToken` of src/skills/email-manager/index.js (lines 16-49):
return the cached token when the guard holds, otherwise perform one
exchange; a non-2xx exchange throws and leaves the cache untouched, a 2xx
exchange replaces the whole cache record and returns the new token. -/
def getGraphToken (env : AzureEnv) (cache : TokenCache) (now : Int)
    (net : TokenExchangeResponse) : TokenOutcome GraphTokenError :=
  if isFresh cache now then
    ⟨Except.ok (cache.token.getD ""), cache, []⟩
  else
    match net with
    | TokenExchangeResponse.failure status body =>
        ⟨Except.error (GraphTokenError.authError status body), cache,
          [graphTokenRequest env]⟩
    | TokenExchangeResponse.success tok ein =>
        ⟨Except.ok tok, ⟨some tok, now + ein * 1000⟩, [graphTokenRequest env]⟩

end EmailManager

namespace FabricApi

/-- The error thrown by the fabric-api module's `getAccessToken` on a non-2xx
token response: `Token error: ${response.status}` carries only the status;
the response body is never read. -/
inductive TokenError where
  | authError (status : Nat)
deriving Repr, DecidableEq

/-- The scope requested by the Power BI / Fabric modules. -/
def powerbiScope : String := "https://analysis.windows.net/powerbi/api/.default"

/-- The exchange request built by the fabric-api module's `getAccessToken`
(lines 15-29 of src/skills/fabric-api/index.js); no validation happens. -/
def fabricTokenRequest (env : AzureEnv) : TokenRequest :=
  ⟨jsString env.tenantId, jsString env.clientId, jsString env.clientSecret, powerbiScope⟩

/-- `getAccessToken` of src/skills/fabric-api/index.js (lines 9-41): same
cache logic as the email manager, but the thrown token error carries only
the HTTP status. -/
def getAccessToken (env : AzureEnv) (cache : TokenCache) (now : Int)
    (net : TokenExchangeResponse) : TokenOutcome TokenError :=
  if isFresh cache now then
    ⟨Except.ok (cache.token.getD ""), cache, []⟩
  else
    match net with
    | TokenExchangeResponse.failure status _body =>
        ⟨Except.error (TokenError.authError status), cache, [fabricTokenRequest env]⟩
    | TokenExchangeResponse.success tok ein =>
        ⟨Except.ok tok, ⟨some tok, now + ein * 1000⟩, [fabricTokenRequest env]⟩

/-- The ways `fabric_api_call` can throw: a token-acquisition failure
(propagated from `getAccessToken`), or `JSON.parse` throwing on a non-empty
response body that is not valid JSON.  A non-2xx API status by itself never
throws here. -/
inductive CallFailure where
  | tokenError (status : Nat)
  | parseError (e : String)
deriving Repr, DecidableEq

/-- The result object `fabric_api_call` returns:
`{ status, statusText, data: text ? JSON.parse(text) : null }`. -/
structure CallResult (J : Type) where
  status : Nat
  statusText : String
  data : Option J
deriving Repr, DecidableEq

/-- `fabric_api_call` of src/skills/fabric-api/index.js (lines 44-72):
acquire a token, issue the request (represented by its response `resp`), and
wrap status, statusText and the JSON-parsed body into a result object.
Note the source never consults `response.ok` for the API response: a non-2xx
status is embedded in the result, and the body is parsed as JSON whenever it
is non-empty.  `parse` stands for `JSON.parse`, returning the thrown message
on invalid input. -/
def fabric_api_call (J : Type) (parse : String → Except String J)
    (env : AzureEnv) (cache : TokenCache) (now : Int)
    (tokenNet : TokenExchangeResponse) (resp : HttpResponse) :
    Except CallFailure (CallResult J) × TokenCache :=
  let o := getAccessToken env cache now tokenNet
  match o.result with
  | Except.error (TokenError.authError s) => (Except.error (CallFailure.tokenError s), o.cache)
  | Except.ok _token =>
      if resp.body = "" then
        (Except.ok ⟨resp.status, resp.statusText, none⟩, o.cache)
      else
        match parse resp.body with
        | Except.ok v => (Except.ok ⟨resp.status, resp.statusText, some v⟩, o.cache)
        | Except.error e => (Except.error (CallFailure.parseError e), o.cache)

end FabricApi

namespace ReportBuilder

/-- The errors `getAccessToken` of src/skills/powerbi-report-builder/index.js
can throw: the missing-credentials check (lines 26-30, thrown before any
network call), or the non-2xx token response error
`Azure AD token error: ${response.status} - ${error}` carrying status and
body text. -/
inductive TokenError where
  | configError
  | authError (status : Nat) (body : String)
deriving Repr, DecidableEq

/-- The exchange request built by the report builder from the validated
environment variables. -/
def pbiTokenRequest (env : AzureEnv) : TokenRequest :=
  ⟨jsString env.tenantId, jsString env.clientId, jsString env.clientSecret,
    FabricApi.powerbiScope⟩

/-- `getAccessToken` of src/skills/powerbi-report-builder/index.js
(lines 16-60): cache guard first, then the credential check
`if (!tenantId || !clientId || !clientSecret) throw ...` before the network,
then one exchange with the same cache-update logic as the other modules. -/
def getAccessToken (env : AzureEnv) (cache : TokenCache) (now : Int)
    (net : TokenExchangeResponse) : TokenOutcome TokenError :=
  if isFresh cache now then
    ⟨Except.ok (cache.token.getD ""), cache, []⟩
  else if !strTruthy env.tenantId || !strTruthy env.clientId || !strTruthy env.clientSecret then
    ⟨Except.error TokenError.configError, cache, []⟩
  else
    match net with
    | TokenExchangeResponse.failure status body =>
        ⟨Except.error (TokenError.authError status body), cache, [pbiTokenRequest env]⟩
    | TokenExchangeResponse.success tok ein =>
        ⟨Except.ok tok, ⟨some tok, now + ein * 1000⟩, [pbiTokenRequest env]⟩

/-- The ways `fabricApiRequest` can fail: a token-acquisition error
(config or auth, propagated from `getAccessToken`), a non-2xx API response
(`Fabric API error: ${response.status} - ${error}`, carrying status and raw
body text), or `JSON.parse` throwing on an invalid non-empty 2xx body. -/
inductive Failure where
  | configError
  | tokenError (status : Nat) (body : String)
  | apiError (status : Nat) (body : String)
  | parseError (e : String)
deriving Repr, DecidableEq

/-- `fabricApiRequest` of src/skills/powerbi-report-builder/index.js
(lines 65-90): acquire a token, issue the request; a non-2xx response throws
with status and raw body text; a 2xx response yields `null` on an empty body
and the JSON-parsed body otherwise. -/
def fabricApiRequest (J : Type) (parse : String → Except String J)
    (env : AzureEnv) (cache : TokenCache) (now : Int)
    (tokenNet : TokenExchangeResponse) (resp : HttpResponse) :
    Except Failure (Option J) × TokenCache :=
  let o := getAccessToken env cache now tokenNet
  match o.result with
  | Except.error TokenError.configError => (Except.error Failure.configError, o.cache)
  | Except.error (TokenError.authError s b) => (Except.error (Failure.tokenError s b), o.cache)
  | Except.ok _token =>
      if resp.isOk then
        if resp.body = "" then (Except.ok none, o.cache)
        else
          match parse resp.body with
          | Except.ok v => (Except.ok (some v), o.cache)
          | Except.error e => (Except.error (Failure.parseError e), o.cache)
      else (Except.error (Failure.apiError resp.status resp.body), o.cache)

end ReportBuilder

namespace EmailManager

/-- The ways `graphRequest` can fail: a token-acquisition error propagated
from `getGraphToken`, a non-2xx Graph response
(`Graph API error: ${response.status} - ${error}`, carrying status and raw
body text), or `JSON.parse` throwing on an invalid non-empty 2xx body. -/
inductive GraphFailure where
  | tokenError (status : Nat) (body : String)
  | apiError (status : Nat) (body : String)
  | parseError (e : String)
deriving Repr, DecidableEq

/-- `graphRequest` of src/skills/email-manager/index.js (lines 51-74):
acquire a token, issue the request (represented by its response `resp`); a
non-2xx response throws with status and raw body text; a 2xx response yields
`null` on an empty body and the JSON-parsed body otherwise.  `parse` stands
for `JSON.parse`. -/
def graphRequest (J : Type) (parse : String → Except String J)
    (env : AzureEnv) (cache : TokenCache) (now : Int)
    (tokenNet : TokenExchangeResponse) (resp : HttpResponse) :
    Except GraphFailure (Option J) × TokenCache :=
  let o := getGraphToken env cache now tokenNet
  match o.result with
  | Except.error (GraphTokenError.authError s b) =>
      (Except.error (GraphFailure.tokenError s b), o.cache)
  | Except.ok _token =>
      if resp.isOk then
        if resp.body = "" then (Except.ok none, o.cache)
        else
          match parse resp.body with
          | Except.ok v => (Except.ok (some v), o.cache)
          | Except.error e => (Except.error (GraphFailure.parseError e), o.cache)
      else (Except.error (GraphFailure.apiError resp.status resp.body), o.cache)

/-- `emailAddress: { address }` as nested in Graph message recipients. -/
structure Recipient where
  address : String
deriving Repr, DecidableEq

/-- `body: { content }` of a Graph message. -/
structure MsgBody where
  content : String
deriving Repr, DecidableEq

/-- The fields of a Graph message that `read_email` selects.  Optional
chaining (`msg.from?...`, `msg.body?.content`) is modelled with `Option`. -/
structure Message where
  id : String
  subject : String
  sender : Option Recipient
  toRecipients : Option (List Recipient)
  ccRecipients : Option (List Recipient)
  receivedDateTime : String
  isRead : Bool
  body : Option MsgBody
  hasAttachments : Bool
deriving Repr, DecidableEq

/-- The `formatted` record built by `read_email` (lines 128-138): the
JSON-serialized primary result.  `sender` and `toAddrs` model the source
fields `from` and `to` (reserved words here); `body` is the HTML-stripped
content, `bodyHtml` the raw content (absent when the message has no body). -/
structure ReadEmailResult where
  id : String
  subject : String
  sender : Option String
  toAddrs : List String
  cc : List String
  date : String
  body : String
  bodyHtml : Option String
  hasAttachments : Bool
deriving Repr, DecidableEq

/-- Building the `formatted` record from a fetched message.  `strip` stands
for the pure helper `stripHtml`. -/
def readEmailFormatted (strip : String → String) (msg : Message) : ReadEmailResult :=
  ⟨msg.id, msg.subject, msg.sender.map Recipient.address,
    (msg.toRecipients.getD []).map Recipient.address,
    (msg.ccRecipients.getD []).map Recipient.address,
    msg.receivedDateTime,
    strip ((msg.body.map MsgBody.content).getD ""),
    msg.body.map MsgBody.content,
    msg.hasAttachments⟩

/-- `read_email` of src/skills/email-manager/index.js (lines 122-146):
fetch the message, build `formatted`, then issue the best-effort
mark-as-read PATCH whose outcome is swallowed by `.catch(() => ..)`, and
return `formatted`.  `getOutcome` is the outcome of the initial GET and
`patchOutcome` that of the PATCH; the latter is deliberately unused, exactly
as the source discards it. -/
def read_email (strip : String → String)
    (getOutcome : Except GraphFailure Message)
    (patchOutcome : Except GraphFailure (Option Unit)) :
    Except GraphFailure ReadEmailResult :=
  match getOutcome with
  | Except.error e => Except.error e
  | Except.ok msg => Except.ok (readEmailFormatted strip msg)

/-- The `$top` computation of `read_inbox` (line 107):
`Math.min(count || 10, 50)`; a missing or zero `count` is falsy. -/
def read_inbox_top (count : Option Nat) : Nat :=
  min (match count with
        | none => 10
        | some 0 => 10
        | some n => n) 50

/-- The `$top` computation of `search_emails` (line 194), identical to the
one in `read_inbox`. -/
def search_emails_top (count : Option Nat) : Nat :=
  min (match count with
        | none => 10
        | some 0 => 10
        | some n => n) 50

end EmailManager

/-- Claim C10: `read_inbox` and `search_emails` request at most 50 messages:
a caller-supplied count is clamped to a maximum of 50, and a missing or zero
count defaults to 10. -/
theorem inbox_search_top_clamped (c : Option Nat) (n : Nat) :
    EmailManager.read_inbox_top c ≤ 50 ∧ EmailManager.search_emails_top c ≤ 50 ∧
    EmailManager.read_inbox_top none = 10 ∧ EmailManager.search_emails_top none = 10 ∧
    EmailManager.read_inbox_top (some 0) = 10 ∧
    EmailManager.search_emails_top (some 0) = 10 ∧
    EmailManager.read_inbox_top (some (n + 1)) = min (n + 1) 50 ∧
    EmailManager.search_emails_top (some (n + 1)) = min (n + 1) 50 :=
  ⟨Nat.min_le_right _ _, Nat.min_le_right _ _, rfl, rfl, rfl, rfl, rfl, rfl⟩

/-- Claim C8: in `read_email` the best-effort mark-as-read PATCH is
fire-and-forget: its outcome (in particular an API failure) neither changes
the formatted message returned as the primary result nor raises an error to
the caller. -/
theorem read_email_mark_as_read_fire_and_forget
    (strip : String → String) (msg : EmailManager.Message)
    (p1 p2 : Except EmailManager.GraphFailure (Option Unit))
    (status : Nat) (body : String) :
    EmailManager.read_email strip (Except.ok msg) p1
      = Except.ok (EmailManager.readEmailFormatted strip msg) ∧
    EmailManager.read_email strip (Except.ok msg)
        (Except.error (EmailManager.GraphFailure.apiError status body))
      = EmailManager.read_email strip (Except.ok msg) p2 :=
  ⟨rfl, rfl⟩

/-- Claim C9: every mutation of the token cache replaces the token value and
its expiry together, both derived from the same token-exchange response:
after any call the cache is either untouched or equals
`{ token: access_token, expiresAt: now + expires_in*1000 }` built from the
one response of that call (shown for the email-manager and fabric-api
caches). -/
theorem token_cache_replaced_as_unit (env envF : AzureEnv) (cache : TokenCache)
    (now : Int) (net : TokenExchangeResponse) :
    ((EmailManager.getGraphToken env cache now net).cache = cache ∨
      ∃ a e, net = TokenExchangeResponse.success a e ∧
        (EmailManager.getGraphToken env cache now net).cache
          = ⟨some a, now + e * 1000⟩) ∧
    ((FabricApi.getAccessToken envF cache now net).cache = cache ∨
      ∃ a e, net = TokenExchangeResponse.success a e ∧
        (FabricApi.getAccessToken envF cache now net).cache
          = ⟨some a, now + e * 1000⟩) := by
  constructor
  · by_cases h : isFresh cache now = true
    · left; simp [EmailManager.getGraphToken, h]
    · cases net with
      | failure s b => left; simp [EmailManager.getGraphToken, h]
      | success a e =>
          right
          exact ⟨a, e, rfl, by simp [EmailManager.getGraphToken, h]⟩
  · by_cases h : isFresh cache now = true
    · left; simp [FabricApi.getAccessToken, h]
    · cases net with
      | failure s b => left; simp [FabricApi.getAccessToken, h]
      | success a e =>
          right
          exact ⟨a, e, rfl, by simp [FabricApi.getAccessToken, h]⟩

/-- Claim C7: for every authenticated request, a successful (2xx) response
whose body has zero length yields a `null` result, not a JSON parse error —
for any parse function (`JSON.parse` is never invoked on the empty body),
in `graphRequest` (email-manager) and `fabricApiRequest`
(powerbi-report-builder). -/
theorem empty_body_yields_null (J : Type) (parse : String → Except String J)
    (env envP : AzureEnv) (cache : TokenCache) (now : Int)
    (tnet : TokenExchangeResponse) (resp : HttpResponse)
    (hG : exOk (EmailManager.getGraphToken env cache now tnet).result = true)
    (hP : exOk (ReportBuilder.getAccessToken envP cache now tnet).result = true)
    (hok : resp.isOk = true) (hbody : resp.body = "") :
    (EmailManager.graphRequest J parse env cache now tnet resp).fst = Except.ok none ∧
    (ReportBuilder.fabricApiRequest J parse envP cache now tnet resp).fst
      = Except.ok none := by
  constructor
  · unfold EmailManager.graphRequest
    cases hr : (EmailManager.getGraphToken env cache now tnet).result with
    | error e =>
        rw [hr] at hG
        cases e
        simp [exOk] at hG
    | ok t => simp [hr, hok, hbody]
  · unfold ReportBuilder.fabricApiRequest
    cases hr : (ReportBuilder.getAccessToken envP cache now tnet).result with
    | error e =>
        rw [hr] at hP
        cases e <;> simp [exOk] at hP
    | ok t => simp [hr, hok, hbody]

/-- Witness for C7: with an empty cache and a successful exchange, a 204
response with an empty body yields `Except.ok none` in both wrappers. -/
theorem empty_body_yields_null_witness :
    exOk (EmailManager.getGraphToken ⟨some "t", some "c", some "s"⟩
        TokenCache.initial 0 (TokenExchangeResponse.success "TOK" 3600)).result = true ∧
    exOk (ReportBuilder.getAccessToken ⟨some "t", some "c", some "s"⟩
        TokenCache.initial 0 (TokenExchangeResponse.success "TOK" 3600)).result = true ∧
    HttpResponse.isOk ⟨204, "No Content", ""⟩ = true ∧
    ((EmailManager.graphRequest Unit (fun _ => Except.ok ())
        ⟨some "t", some "c", some "s"⟩ TokenCache.initial 0
        (TokenExchangeResponse.success "TOK" 3600) ⟨204, "No Content", ""⟩).fst
      = Except.ok none ∧
      (ReportBuilder.fabricApiRequest Unit (fun _ => Except.ok ())
        ⟨some "t", some "c", some "s"⟩ TokenCache.initial 0
        (TokenExchangeResponse.success "TOK" 3600) ⟨204, "No Content", ""⟩).fst
      = Except.ok none) :=
  ⟨rfl, rfl, rfl,
    empty_body_yields_null Unit (fun _ => Except.ok ())
      ⟨some "t", some "c", some "s"⟩ ⟨some "t", some "c", some "s"⟩
      TokenCache.initial 0 (TokenExchangeResponse.success "TOK" 3600)
      ⟨204, "No Content", ""⟩ rfl rfl rfl rfl⟩

/-- Counterexample to claim C1 as stated: a cache holding the token `""`
with `expiresAt = 1000000000 > 0 + 60000` is fresh by expiry, yet
`getGraphToken` at `now = 0` performs a network call and returns the newly
exchanged token instead of the cached value, because the JavaScript guard
`tokenCache.token && ...` treats the empty string as falsy. -/
theorem cached_empty_token_refreshes_cex :
    ((1000000000 : Int) > 0 + 60000) ∧
    (EmailManager.getGraphToken ⟨some "t", some "c", some "s"⟩
        ⟨some "", 1000000000⟩ 0 (TokenExchangeResponse.success "NEW" 3600)).calls.length
      = 1 ∧
    (EmailManager.getGraphToken ⟨some "t", some "c", some "s"⟩
        ⟨some "", 1000000000⟩ 0 (TokenExchangeResponse.success "NEW" 3600)).result
      = Except.ok "NEW" :=
  ⟨by decide, rfl, rfl⟩

/-- Claim C1 (amended): if the token cache holds a non-empty token whose
`expiresAt` is strictly greater than `now + 60000` ms, the token getter
returns that cached token's value, performs no network call, and leaves the
cache unchanged (email-manager `getGraphToken` and fabric-api
`getAccessToken`). -/
theorem fresh_nonempty_token_returned_without_network
    (env envF : AzureEnv) (cache : TokenCache) (now : Int)
    (net : TokenExchangeResponse) (t : String)
    (h1 : cache.token = some t) (h2 : t ≠ "")
    (h3 : cache.expiresAt > now + 60000) :
    EmailManager.getGraphToken env cache now net = ⟨Except.ok t, cache, []⟩ ∧
    FabricApi.getAccessToken envF cache now net = ⟨Except.ok t, cache, []⟩ := by
  have hf : isFresh cache now = true := by
    simp [isFresh, strTruthy, h1, h2, h3]
  constructor <;>
    simp [EmailManager.getGraphToken, FabricApi.getAccessToken, hf, h1]

/-- Witness for the amended C1: the cached token "TOK" with expiry 100000 is
returned unchanged at `now = 0` with no network call. -/
theorem fresh_nonempty_token_returned_without_network_witness :
    (TokenCache.token ⟨some "TOK", 100000⟩ = some "TOK") ∧
    ("TOK" ≠ "") ∧
    (TokenCache.expiresAt ⟨some "TOK", 100000⟩ > 0 + 60000) ∧
    (EmailManager.getGraphToken ⟨some "t", some "c", some "s"⟩ ⟨some "TOK", 100000⟩ 0
        (TokenExchangeResponse.failure 500 "boom")
      = ⟨Except.ok "TOK", ⟨some "TOK", 100000⟩, []⟩ ∧
      FabricApi.getAccessToken ⟨some "t", some "c", some "s"⟩ ⟨some "TOK", 100000⟩ 0
        (TokenExchangeResponse.failure 500 "boom")
      = ⟨Except.ok "TOK", ⟨some "TOK", 100000⟩, []⟩) :=
  ⟨rfl, by decide, by decide,
    fresh_nonempty_token_returned_without_network
      ⟨some "t", some "c", some "s"⟩ ⟨some "t", some "c", some "s"⟩
      ⟨some "TOK", 100000⟩ 0 (TokenExchangeResponse.failure 500 "boom") "TOK"
      rfl (by decide) (by decide)⟩

/-- Counterexample to claim C2 as stated: with an empty cache at `now = 0`
and a 2xx exchange issuing token "T" with `expires_in = 30` seconds, the
call returns "T" and caches `expiresAt = 30000`, but a subsequent immediate
call does NOT reuse it: `30000 > 0 + 60000` fails, so the second call
performs another exchange and returns the other token. -/
theorem short_lived_token_not_reused_cex :
    (EmailManager.getGraphToken ⟨some "t", some "c", some "s"⟩ TokenCache.initial 0
        (TokenExchangeResponse.success "T" 30)).result = Except.ok "T" ∧
    (EmailManager.getGraphToken ⟨some "t", some "c", some "s"⟩ TokenCache.initial 0
        (TokenExchangeResponse.success "T" 30)).cache = ⟨some "T", 30000⟩ ∧
    (EmailManager.getGraphToken ⟨some "t", some "c", some "s"⟩ ⟨some "T", 30000⟩ 0
        (TokenExchangeResponse.success "T2" 3600)).calls.length = 1 ∧
    (EmailManager.getGraphToken ⟨some "t", some "c", some "s"⟩ ⟨some "T", 30000⟩ 0
        (TokenExchangeResponse.success "T2" 3600)).result = Except.ok "T2" ∧
    (Except.ok "T2" : Except EmailManager.GraphTokenError String) ≠ Except.ok "T" :=
  ⟨rfl, rfl, rfl, rfl, fun h => absurd (Except.ok.inj h) (by decide)⟩

/-- Claim C2 (amended): at every read time `now` at which no token is cached
or the cached token's `expiresAt <= now + 60000` ms, the getter performs
exactly one token-exchange call and, on a 2xx response — whatever token and
lifetime it issues — returns the newly issued `access_token` and replaces
the cache with `expiresAt = now + expires_in*1000`; provided the issued
token is non-empty and `expires_in*1000 > 60000`, a subsequent immediate
call returns the same token without a new exchange (email-manager and
fabric-api). -/
theorem refresh_updates_cache_and_reuses
    (env envF : AzureEnv) (cache : TokenCache) (now : Int)
    (tok : String) (ein : Int) (net2 : TokenExchangeResponse)
    (h1 : cache.token = none ∨ cache.expiresAt ≤ now + 60000) :
    EmailManager.getGraphToken env cache now (TokenExchangeResponse.success tok ein)
      = ⟨Except.ok tok, ⟨some tok, now + ein * 1000⟩,
          [EmailManager.graphTokenRequest env]⟩ ∧
    FabricApi.getAccessToken envF cache now (TokenExchangeResponse.success tok ein)
      = ⟨Except.ok tok, ⟨some tok, now + ein * 1000⟩,
          [FabricApi.fabricTokenRequest envF]⟩ ∧
    (tok ≠ "" → ein * 1000 > 60000 →
      EmailManager.getGraphToken env ⟨some tok, now + ein * 1000⟩ now net2
        = ⟨Except.ok tok, ⟨some tok, now + ein * 1000⟩, []⟩ ∧
      FabricApi.getAccessToken envF ⟨some tok, now + ein * 1000⟩ now net2
        = ⟨Except.ok tok, ⟨some tok, now + ein * 1000⟩, []⟩) := by
  have hstale : isFresh cache now = false := by
    rcases h1 with h | h
    · simp [isFresh, strTruthy, h]
    · have hnot : ¬(cache.expiresAt > now + 60000) := not_lt.mpr h
      simp [isFresh, hnot]
  refine ⟨?_, ?_, ?_⟩
  · simp [EmailManager.getGraphToken, hstale]
  · simp [FabricApi.getAccessToken, hstale]
  · intro h2 h3
    have hfresh2 : isFresh ⟨some tok, now + ein * 1000⟩ now = true := by
      simp [isFresh, strTruthy, h2]
      linarith [h3]
    constructor <;>
      simp [EmailManager.getGraphToken, FabricApi.getAccessToken, hfresh2]

/-- Witness for the amended C2: a cold-start refresh at `now = 0` with a
3600-second token caches it and an immediate second call reuses it without
touching the network; the same unconditional conjuncts also cover a
short-lived 30-second token (one exchange call, cache replaced). -/
theorem refresh_updates_cache_and_reuses_witness :
    (TokenCache.token TokenCache.initial = none ∨
      TokenCache.expiresAt TokenCache.initial ≤ 0 + 60000) ∧
    EmailManager.getGraphToken ⟨some "t", some "c", some "s"⟩ TokenCache.initial 0
        (TokenExchangeResponse.success "T" 3600)
      = ⟨Except.ok "T", ⟨some "T", 0 + 3600 * 1000⟩,
          [EmailManager.graphTokenRequest ⟨some "t", some "c", some "s"⟩]⟩ ∧
    FabricApi.getAccessToken ⟨some "t", some "c", some "s"⟩ TokenCache.initial 0
        (TokenExchangeResponse.success "T" 3600)
      = ⟨Except.ok "T", ⟨some "T", 0 + 3600 * 1000⟩,
          [FabricApi.fabricTokenRequest ⟨some "t", some "c", some "s"⟩]⟩ ∧
    ("T" ≠ "") ∧
    ((3600 : Int) * 1000 > 60000) ∧
    EmailManager.getGraphToken ⟨some "t", some "c", some "s"⟩
        ⟨some "T", 0 + 3600 * 1000⟩ 0 (TokenExchangeResponse.failure 500 "x")
      = ⟨Except.ok "T", ⟨some "T", 0 + 3600 * 1000⟩, []⟩ ∧
    FabricApi.getAccessToken ⟨some "t", some "c", some "s"⟩
        ⟨some "T", 0 + 3600 * 1000⟩ 0 (TokenExchangeResponse.failure 500 "x")
      = ⟨Except.ok "T", ⟨some "T", 0 + 3600 * 1000⟩, []⟩ ∧
    EmailManager.getGraphToken ⟨some "t", some "c", some "s"⟩ TokenCache.initial 0
        (TokenExchangeResponse.success "T" 30)
      = ⟨Except.ok "T", ⟨some "T", 0 + 30 * 1000⟩,
          [EmailManager.graphTokenRequest ⟨some "t", some "c", some "s"⟩]⟩ := by
  refine ⟨Or.inl rfl, ?_, ?_, by decide, by decide, ?_, ?_, ?_⟩
  · exact (refresh_updates_cache_and_reuses
      ⟨some "t", some "c", some "s"⟩ ⟨some "t", some "c", some "s"⟩
      TokenCache.initial 0 "T" 3600 (TokenExchangeResponse.failure 500 "x")
      (Or.inl rfl)).1
  · exact (refresh_updates_cache_and_reuses
      ⟨some "t", some "c", some "s"⟩ ⟨some "t", some "c", some "s"⟩
      TokenCache.initial 0 "T" 3600 (TokenExchangeResponse.failure 500 "x")
      (Or.inl rfl)).2.1
  · exact ((refresh_updates_cache_and_reuses
      ⟨some "t", some "c", some "s"⟩ ⟨some "t", some "c", some "s"⟩
      TokenCache.initial 0 "T" 3600 (TokenExchangeResponse.failure 500 "x")
      (Or.inl rfl)).2.2 (by decide) (by decide)).1
  · exact ((refresh_updates_cache_and_reuses
      ⟨some "t", some "c", some "s"⟩ ⟨some "t", some "c", some "s"⟩
      TokenCache.initial 0 "T" 3600 (TokenExchangeResponse.failure 500 "x")
      (Or.inl rfl)).2.2 (by decide) (by decide)).2
  · exact (refresh_updates_cache_and_reuses
      ⟨some "t", some "c", some "s"⟩ ⟨some "t", some "c", some "s"⟩
      TokenCache.initial 0 "T" 30 (TokenExchangeResponse.failure 500 "x")
      (Or.inl rfl)).1

/-- Counterexample to claim C3 as stated: `fabric_api_call` (fabric-api)
never consults `response.ok`, and it always hands a non-empty body to
`JSON.parse`.  On a 404 response with the valid-JSON body "[1]" it does not
fail at all: it returns a success result embedding the status, with the
error body parsed as JSON.  On a 404 response whose body "not found" is not
valid JSON, `JSON.parse` throws, so the call fails with a parse error
instead of an error carrying the status and the raw text. -/
theorem fabric_api_call_non2xx_no_error_cex :
    HttpResponse.isOk ⟨404, "Not Found", "[1]"⟩ = false ∧
    (FabricApi.fabric_api_call String (fun s => Except.ok s)
        ⟨some "t", some "c", some "s"⟩ TokenCache.initial 0
        (TokenExchangeResponse.success "TOK" 3600) ⟨404, "Not Found", "[1]"⟩).fst
      = Except.ok ⟨404, "Not Found", some "[1]"⟩ ∧
    (FabricApi.fabric_api_call String (fun _ => Except.error "SyntaxError")
        ⟨some "t", some "c", some "s"⟩ TokenCache.initial 0
        (TokenExchangeResponse.success "TOK" 3600) ⟨404, "Not Found", "not found"⟩).fst
      = Except.error (FabricApi.CallFailure.parseError "SyntaxError") :=
  ⟨rfl, rfl, rfl⟩

/-- Claim C3 (amended): for `graphRequest` (email-manager) and
`fabricApiRequest` (powerbi-report-builder), a non-2xx response makes the
call fail with an error carrying the HTTP status and the raw response text,
for every parse function and every body — valid JSON or not — so the error
body is never parsed as JSON; `fabric_api_call` (fabric-api) instead never
fails because of a non-2xx status: an empty body yields a success result
embedding status and statusText with `null` data, a non-empty body is
always handed to `JSON.parse` — yielding a success result with the parsed
data when it is valid JSON, and a parse error (not a status-carrying API
error) when it is not. -/
theorem non2xx_api_response_behavior
    (J : Type) (parse : String → Except String J)
    (env envP envF : AzureEnv) (cache : TokenCache) (now : Int)
    (tnet : TokenExchangeResponse) (resp : HttpResponse) (v : J) (e : String)
    (hG : exOk (EmailManager.getGraphToken env cache now tnet).result = true)
    (hP : exOk (ReportBuilder.getAccessToken envP cache now tnet).result = true)
    (hF : exOk (FabricApi.getAccessToken envF cache now tnet).result = true)
    (hok : resp.isOk = false) :
    (EmailManager.graphRequest J parse env cache now tnet resp).fst
      = Except.error (EmailManager.GraphFailure.apiError resp.status resp.body) ∧
    (ReportBuilder.fabricApiRequest J parse envP cache now tnet resp).fst
      = Except.error (ReportBuilder.Failure.apiError resp.status resp.body) ∧
    (resp.body = "" →
      (FabricApi.fabric_api_call J parse envF cache now tnet resp).fst
        = Except.ok ⟨resp.status, resp.statusText, none⟩) ∧
    (resp.body ≠ "" → parse resp.body = Except.ok v →
      (FabricApi.fabric_api_call J parse envF cache now tnet resp).fst
        = Except.ok ⟨resp.status, resp.statusText, some v⟩) ∧
    (resp.body ≠ "" → parse resp.body = Except.error e →
      (FabricApi.fabric_api_call J parse envF cache now tnet resp).fst
        = Except.error (FabricApi.CallFailure.parseError e)) := by
  refine ⟨?_, ?_, ?_, ?_, ?_⟩
  · unfold EmailManager.graphRequest
    cases hr : (EmailManager.getGraphToken env cache now tnet).result with
    | error e2 =>
        rw [hr] at hG
        cases e2
        simp [exOk] at hG
    | ok t => simp [hr, hok]
  · unfold ReportBuilder.fabricApiRequest
    cases hr : (ReportBuilder.getAccessToken envP cache now tnet).result with
    | error e2 =>
        rw [hr] at hP
        cases e2 <;> simp [exOk] at hP
    | ok t => simp [hr, hok]
  · intro hb
    unfold FabricApi.fabric_api_call
    cases hr : (FabricApi.getAccessToken envF cache now tnet).result with
    | error e2 =>
        rw [hr] at hF
        cases e2
        simp [exOk] at hF
    | ok t => simp [hr, hb]
  · intro hb hv
    unfold FabricApi.fabric_api_call
    cases hr : (FabricApi.getAccessToken envF cache now tnet).result with
    | error e2 =>
        rw [hr] at hF
        cases e2
        simp [exOk] at hF
    | ok t => simp [hr, hb, hv]
  · intro hb he
    unfold FabricApi.fabric_api_call
    cases hr : (FabricApi.getAccessToken envF cache now tnet).result with
    | error e2 =>
        rw [hr] at hF
        cases e2
        simp [exOk] at hF
    | ok t => simp [hr, hb, he]

/-- Witness for the amended C3: on a 404 response with the invalid-JSON body
"not json" (every parse of it fails), `graphRequest` and `fabricApiRequest`
fail with status 404 and the raw body — the body is never parsed — while
`fabric_api_call` fails with the parse error; on a 404 with the valid-JSON
body "[1]" `fabric_api_call` returns a success result with the parsed data,
and on a 404 with an empty body it returns a success result with `null`
data. -/
theorem non2xx_api_response_behavior_witness :
    exOk (EmailManager.getGraphToken ⟨some "t", some "c", some "s"⟩
        TokenCache.initial 0 (TokenExchangeResponse.success "TOK" 3600)).result = true ∧
    exOk (ReportBuilder.getAccessToken ⟨some "t", some "c", some "s"⟩
        TokenCache.initial 0 (TokenExchangeResponse.success "TOK" 3600)).result = true ∧
    exOk (FabricApi.getAccessToken ⟨some "t", some "c", some "s"⟩
        TokenCache.initial 0 (TokenExchangeResponse.success "TOK" 3600)).result = true ∧
    HttpResponse.isOk ⟨404, "Not Found", "not json"⟩ = false ∧
    (EmailManager.graphRequest String (fun _ => Except.error "SyntaxError")
        ⟨some "t", some "c", some "s"⟩ TokenCache.initial 0
        (TokenExchangeResponse.success "TOK" 3600) ⟨404, "Not Found", "not json"⟩).fst
      = Except.error (EmailManager.GraphFailure.apiError 404 "not json") ∧
    (ReportBuilder.fabricApiRequest String (fun _ => Except.error "SyntaxError")
        ⟨some "t", some "c", some "s"⟩ TokenCache.initial 0
        (TokenExchangeResponse.success "TOK" 3600) ⟨404, "Not Found", "not json"⟩).fst
      = Except.error (ReportBuilder.Failure.apiError 404 "not json") ∧
    (FabricApi.fabric_api_call String (fun _ => Except.error "SyntaxError")
        ⟨some "t", some "c", some "s"⟩ TokenCache.initial 0
        (TokenExchangeResponse.success "TOK" 3600) ⟨404, "Not Found", "not json"⟩).fst
      = Except.error (FabricApi.CallFailure.parseError "SyntaxError") ∧
    (FabricApi.fabric_api_call String (fun s => Except.ok s)
        ⟨some "t", some "c", some "s"⟩ TokenCache.initial 0
        (TokenExchangeResponse.success "TOK" 3600) ⟨404, "Not Found", "[1]"⟩).fst
      = Except.ok ⟨404, "Not Found", some "[1]"⟩ ∧
    (FabricApi.fabric_api_call String (fun s => Except.ok s)
        ⟨some "t", some "c", some "s"⟩ TokenCache.initial 0
        (TokenExchangeResponse.success "TOK" 3600) ⟨404, "Not Found", ""⟩).fst
      = Except.ok ⟨404, "Not Found", none⟩ := by
  refine ⟨rfl, rfl, rfl, rfl, ?_, ?_, ?_, ?_, ?_⟩
  · exact (non2xx_api_response_behavior String (fun _ => Except.error "SyntaxError")
      ⟨some "t", some "c", some "s"⟩ ⟨some "t", some "c", some "s"⟩
      ⟨some "t", some "c", some "s"⟩ TokenCache.initial 0
      (TokenExchangeResponse.success "TOK" 3600) ⟨404, "Not Found", "not json"⟩
      "unused" "SyntaxError" rfl rfl rfl rfl).1
  · exact (non2xx_api_response_behavior String (fun _ => Except.error "SyntaxError")
      ⟨some "t", some "c", some "s"⟩ ⟨some "t", some "c", some "s"⟩
      ⟨some "t", some "c", some "s"⟩ TokenCache.initial 0
      (TokenExchangeResponse.success "TOK" 3600) ⟨404, "Not Found", "not json"⟩
      "unused" "SyntaxError" rfl rfl rfl rfl).2.1
  · exact ((non2xx_api_response_behavior String (fun _ => Except.error "SyntaxError")
      ⟨some "t", some "c", some "s"⟩ ⟨some "t", some "c", some "s"⟩
      ⟨some "t", some "c", some "s"⟩ TokenCache.initial 0
      (TokenExchangeResponse.success "TOK" 3600) ⟨404, "Not Found", "not json"⟩
      "unused" "SyntaxError" rfl rfl rfl rfl).2.2.2.2 (by decide) rfl)
  · exact ((non2xx_api_response_behavior String (fun s => Except.ok s)
      ⟨some "t", some "c", some "s"⟩ ⟨some "t", some "c", some "s"⟩
      ⟨some "t", some "c", some "s"⟩ TokenCache.initial 0
      (TokenExchangeResponse.success "TOK" 3600) ⟨404, "Not Found", "[1]"⟩
      "[1]" "unused" rfl rfl rfl rfl).2.2.2.1 (by decide) rfl)
  · exact ((non2xx_api_response_behavior String (fun s => Except.ok s)
      ⟨some "t", some "c", some "s"⟩ ⟨some "t", some "c", some "s"⟩
      ⟨some "t", some "c", some "s"⟩ TokenCache.initial 0
      (TokenExchangeResponse.success "TOK" 3600) ⟨404, "Not Found", ""⟩
      "unused" "unused" rfl rfl rfl rfl).2.2.1 rfl)

/-- Counterexample to claim C4 as stated: after a failed exchange at
`now = 40000` the cache `{ token: "OLD", expiresAt: 100000 }` is indeed left
unchanged, but a later call at `now = 50000` — strictly before the token's
own expiry, `50000 < 100000` — does not return "OLD": the guard demands
`expiresAt > now + 60000`, so the call performs a new exchange and returns
the freshly issued token instead. -/
theorem failed_refresh_then_margin_window_cex :
    (EmailManager.getGraphToken ⟨some "t", some "c", some "s"⟩
        ⟨some "OLD", 100000⟩ 40000 (TokenExchangeResponse.failure 500 "boom")).cache
      = ⟨some "OLD", 100000⟩ ∧
    ((50000 : Int) < 100000) ∧
    (EmailManager.getGraphToken ⟨some "t", some "c", some "s"⟩
        ⟨some "OLD", 100000⟩ 50000 (TokenExchangeResponse.success "NEW" 3600)).calls.length
      = 1 ∧
    (EmailManager.getGraphToken ⟨some "t", some "c", some "s"⟩
        ⟨some "OLD", 100000⟩ 50000 (TokenExchangeResponse.success "NEW" 3600)).result
      = Except.ok "NEW" ∧
    (Except.ok "NEW" : Except EmailManager.GraphTokenError String) ≠ Except.ok "OLD" :=
  ⟨rfl, by decide, rfl, rfl, fun h => absurd (Except.ok.inj h) (by decide)⟩

/-- Claim C4 (amended): if a token-exchange call returns non-2xx, the
previously cached token (if any) is left exactly as it was — neither
cleared nor overwritten — so a getToken call at any read time at which that
token is non-empty and still fresh (`expiresAt > now + 60000` ms) returns
it (email-manager and fabric-api). -/
theorem failed_refresh_preserves_cache
    (env envF : AzureEnv) (cache : TokenCache) (now now2 : Int)
    (status : Nat) (body : String) (t : String) (net2 : TokenExchangeResponse)
    (h1 : isFresh cache now = false)
    (h2 : cache.token = some t) (h3 : t ≠ "")
    (h4 : cache.expiresAt > now2 + 60000) :
    (EmailManager.getGraphToken env cache now
        (TokenExchangeResponse.failure status body)).cache = cache ∧
    (EmailManager.getGraphToken env cache now
        (TokenExchangeResponse.failure status body)).result
      = Except.error (EmailManager.GraphTokenError.authError status body) ∧
    EmailManager.getGraphToken env cache now2 net2 = ⟨Except.ok t, cache, []⟩ ∧
    (FabricApi.getAccessToken envF cache now
        (TokenExchangeResponse.failure status body)).cache = cache ∧
    (FabricApi.getAccessToken envF cache now
        (TokenExchangeResponse.failure status body)).result
      = Except.error (FabricApi.TokenError.authError status) ∧
    FabricApi.getAccessToken envF cache now2 net2 = ⟨Except.ok t, cache, []⟩ := by
  have hf2 : isFresh cache now2 = true := by
    simp [isFresh, strTruthy, h2, h3, h4]
  refine ⟨?_, ?_, ?_, ?_, ?_, ?_⟩ <;>
    simp [EmailManager.getGraphToken, FabricApi.getAccessToken, h1, hf2, h2]

/-- Witness for the amended C4: the exchange fails at `now = 40000` while
the cache holds "OLD" expiring at 100000; the cache is preserved and a read
at `now = 10000` (where the token is fresh) still returns "OLD". -/
theorem failed_refresh_preserves_cache_witness :
    isFresh ⟨some "OLD", 100000⟩ 40000 = false ∧
    TokenCache.token ⟨some "OLD", 100000⟩ = some "OLD" ∧
    ("OLD" ≠ "") ∧
    (TokenCache.expiresAt ⟨some "OLD", 100000⟩ > 10000 + 60000) ∧
    ((EmailManager.getGraphToken ⟨some "t", some "c", some "s"⟩
        ⟨some "OLD", 100000⟩ 40000 (TokenExchangeResponse.failure 500 "boom")).cache
      = ⟨some "OLD", 100000⟩ ∧
      (EmailManager.getGraphToken ⟨some "t", some "c", some "s"⟩
        ⟨some "OLD", 100000⟩ 40000 (TokenExchangeResponse.failure 500 "boom")).result
      = Except.error (EmailManager.GraphTokenError.authError 500 "boom") ∧
      EmailManager.getGraphToken ⟨some "t", some "c", some "s"⟩
        ⟨some "OLD", 100000⟩ 10000 (TokenExchangeResponse.failure 401 "x")
      = ⟨Except.ok "OLD", ⟨some "OLD", 100000⟩, []⟩ ∧
      (FabricApi.getAccessToken ⟨some "t", some "c", some "s"⟩
        ⟨some "OLD", 100000⟩ 40000 (TokenExchangeResponse.failure 500 "boom")).cache
      = ⟨some "OLD", 100000⟩ ∧
      (FabricApi.getAccessToken ⟨some "t", some "c", some "s"⟩
        ⟨some "OLD", 100000⟩ 40000 (TokenExchangeResponse.failure 500 "boom")).result
      = Except.error (FabricApi.TokenError.authError 500) ∧
      FabricApi.getAccessToken ⟨some "t", some "c", some "s"⟩
        ⟨some "OLD", 100000⟩ 10000 (TokenExchangeResponse.failure 401 "x")
      = ⟨Except.ok "OLD", ⟨some "OLD", 100000⟩, []⟩) :=
  ⟨rfl, rfl, by decide, by decide,
    failed_refresh_preserves_cache
      ⟨some "t", some "c", some "s"⟩ ⟨some "t", some "c", some "s"⟩
      ⟨some "OLD", 100000⟩ 40000 10000 500 "boom" "OLD"
      (TokenExchangeResponse.failure 401 "x") rfl rfl (by decide) (by decide)⟩

/-- Counterexample to claim C5 as stated: the fabric-api `getAccessToken`
error (`Token error: ${response.status}`) does not carry the response body
text: two 401 responses with different bodies produce the very same error
value. -/
theorem fabric_token_error_ignores_body_cex :
    (FabricApi.getAccessToken ⟨some "t", some "c", some "s"⟩ TokenCache.initial 0
        (TokenExchangeResponse.failure 401 "bodyA")).result
      = (FabricApi.getAccessToken ⟨some "t", some "c", some "s"⟩ TokenCache.initial 0
        (TokenExchangeResponse.failure 401 "bodyB")).result ∧
    (FabricApi.getAccessToken ⟨some "t", some "c", some "s"⟩ TokenCache.initial 0
        (TokenExchangeResponse.failure 401 "bodyA")).result
      = Except.error (FabricApi.TokenError.authError 401) ∧
    ("bodyA" : String) ≠ "bodyB" :=
  ⟨rfl, rfl, by decide⟩

/-- Claim C5 (amended): when the token-exchange request returns non-2xx,
email-manager's `getGraphToken` and powerbi-report-builder's
`getAccessToken` fail with an error carrying both the HTTP status and the
response body text; fabric-api's `getAccessToken` fails with an error
carrying only the HTTP status. -/
theorem token_error_payloads
    (env envP envF : AzureEnv) (cache : TokenCache) (now : Int)
    (status : Nat) (body : String)
    (h1 : isFresh cache now = false)
    (ht : strTruthy envP.tenantId = true) (hc : strTruthy envP.clientId = true)
    (hs : strTruthy envP.clientSecret = true) :
    (EmailManager.getGraphToken env cache now
        (TokenExchangeResponse.failure status body)).result
      = Except.error (EmailManager.GraphTokenError.authError status body) ∧
    (ReportBuilder.getAccessToken envP cache now
        (TokenExchangeResponse.failure status body)).result
      = Except.error (ReportBuilder.TokenError.authError status body) ∧
    (FabricApi.getAccessToken envF cache now
        (TokenExchangeResponse.failure status body)).result
      = Except.error (FabricApi.TokenError.authError status) := by
  refine ⟨?_, ?_, ?_⟩ <;>
    simp [EmailManager.getGraphToken, ReportBuilder.getAccessToken,
      FabricApi.getAccessToken, h1, ht, hc, hs]

/-- Witness for the amended C5: a 401 exchange response with body "denied"
produces the three module-specific errors. -/
theorem token_error_payloads_witness :
    isFresh TokenCache.initial 0 = false ∧
    strTruthy (some "t") = true ∧
    strTruthy (some "c") = true ∧
    strTruthy (some "s") = true ∧
    ((EmailManager.getGraphToken ⟨some "t", some "c", some "s"⟩ TokenCache.initial 0
        (TokenExchangeResponse.failure 401 "denied")).result
      = Except.error (EmailManager.GraphTokenError.authError 401 "denied") ∧
      (ReportBuilder.getAccessToken ⟨some "t", some "c", some "s"⟩ TokenCache.initial 0
        (TokenExchangeResponse.failure 401 "denied")).result
      = Except.error (ReportBuilder.TokenError.authError 401 "denied") ∧
      (FabricApi.getAccessToken ⟨some "t", some "c", some "s"⟩ TokenCache.initial 0
        (TokenExchangeResponse.failure 401 "denied")).result
      = Except.error (FabricApi.TokenError.authError 401)) :=
  ⟨rfl, rfl, rfl, rfl,
    token_error_payloads
      ⟨some "t", some "c", some "s"⟩ ⟨some "t", some "c", some "s"⟩
      ⟨some "t", some "c", some "s"⟩ TokenCache.initial 0 401 "denied"
      rfl rfl rfl rfl⟩

/-- Counterexample to claim C6 as stated: with all three Azure credentials
missing, email-manager's `getGraphToken` does not fail fast — it performs
the token-exchange network call anyway (interpolating the string
"undefined" for each missing value) and, on a 2xx exchange, returns the
token; fabric-api behaves the same. -/
theorem missing_creds_still_calls_network_cex :
    (EmailManager.getGraphToken ⟨none, none, none⟩ TokenCache.initial 0
        (TokenExchangeResponse.success "T" 3600)).calls
      = [⟨"undefined", "undefined", "undefined", EmailManager.graphScope⟩] ∧
    (EmailManager.getGraphToken ⟨none, none, none⟩ TokenCache.initial 0
        (TokenExchangeResponse.success "T" 3600)).result = Except.ok "T" ∧
    (FabricApi.getAccessToken ⟨none, none, none⟩ TokenCache.initial 0
        (TokenExchangeResponse.success "T" 3600)).calls.length = 1 :=
  ⟨rfl, rfl, rfl⟩

/-- Claim C6 (amended): only powerbi-report-builder's `getAccessToken`
fails fast with a configuration error — and no network call — when a
required credential is missing; email-manager's `getGraphToken` and
fabric-api's `getAccessToken` perform the token-exchange call regardless of
missing credentials. -/
theorem config_check_only_in_report_builder
    (env envF envP : AzureEnv) (cache : TokenCache) (now : Int)
    (net : TokenExchangeResponse)
    (h1 : isFresh cache now = false)
    (hmiss : envP.tenantId = none ∨ envP.clientId = none ∨ envP.clientSecret = none) :
    ReportBuilder.getAccessToken envP cache now net
      = ⟨Except.error ReportBuilder.TokenError.configError, cache, []⟩ ∧
    (EmailManager.getGraphToken env cache now net).calls.length = 1 ∧
    (FabricApi.getAccessToken envF cache now net).calls.length = 1 := by
  have hcheck : (!strTruthy envP.tenantId || !strTruthy envP.clientId
      || !strTruthy envP.clientSecret) = true := by
    rcases hmiss with h | h | h <;> simp [strTruthy, h]
  refine ⟨?_, ?_, ?_⟩
  · simp [ReportBuilder.getAccessToken, h1, hcheck]
  · cases net <;> simp [EmailManager.getGraphToken, h1]
  · cases net <;> simp [FabricApi.getAccessToken, h1]

/-- Witness for the amended C6: with `AZURE_TENANT_ID` unset the report
builder raises its configuration error without touching the network, while
the other two modules each issue one exchange call. -/
theorem config_check_only_in_report_builder_witness :
    isFresh TokenCache.initial 0 = false ∧
    (AzureEnv.tenantId ⟨none, some "c", some "s"⟩ = none ∨
      AzureEnv.clientId ⟨none, some "c", some "s"⟩ = none ∨
      AzureEnv.clientSecret ⟨none, some "c", some "s"⟩ = none) ∧
    (ReportBuilder.getAccessToken ⟨none, some "c", some "s"⟩ TokenCache.initial 0
        (TokenExchangeResponse.failure 500 "x")
      = ⟨Except.error ReportBuilder.TokenError.configError, TokenCache.initial, []⟩ ∧
      (EmailManager.getGraphToken ⟨none, none, none⟩ TokenCache.initial 0
        (TokenExchangeResponse.failure 500 "x")).calls.length = 1 ∧
      (FabricApi.getAccessToken ⟨none, none, none⟩ TokenCache.initial 0
        (TokenExchangeResponse.failure 500 "x")).calls.length = 1) :=
  ⟨rfl, Or.inl rfl,
    config_check_only_in_report_builder
      ⟨none, none, none⟩ ⟨none, none, none⟩ ⟨none, some "c", some "s"⟩
      TokenCache.initial 0 (TokenExchangeResponse.failure 500 "x")
      rfl (Or.inl rfl)⟩
